import Mathlib

/-!
Verification of the wallpaper-engine ↔ Home Assistant MQTT bridge.

The repository consists of three near-duplicate single-file variants:
`src/main.ts`, `src/unnamed/part_000` and `src/unnamed/part_001`.  This
development shallowly embeds the glue logic of those variants.  External
services — the Wallpaper Engine control API, `JSON.parse`, the host's
network-interface enumeration — are modelled as explicit oracle
parameters.  Every attempted control-API call and every MQTT publish is
recorded, in program order, as an `Effect`; a thrown error aborts the
remaining statements up to the nearest enclosing catch (which in the
source only logs), so a handler branch that throws simply returns the
effects accumulated so far and leaves the shadow state untouched.
-/

namespace WeHa

/-- JS `String.prototype.split` with a one-character separator, on the
character list of the string. -/
def splitOnCharAux (sep : Char) : List Char → List (List Char)
  | [] => [[]]
  | c :: cs =>
    let r := splitOnCharAux sep cs
    if c = sep then [] :: r
    else
      match r with
      | [] => [[c]]
      | h :: t => (c :: h) :: t

/-- JS `msg.split('|')`. -/
def splitPipe (s : String) : List String :=
  (splitOnCharAux '|' s.data).map (fun cs => String.mk cs)

/-- JS `String.prototype.toLowerCase`, modelled for ASCII text (every
payload compared case-insensitively by the program is ASCII). -/
def toLowerCaseJs (s : String) : String :=
  String.mk (s.data.map Char.toLower)

/-- The toggle-payload test used by all three variants for the boolean
commands: `['ON','1'].includes(msg) || msg.toLowerCase() === 'true'`
(main.ts, part_001) and the literal-equality form of part_000, which is
the same predicate. -/
def parseToggle (msg : String) : Bool :=
  (msg == "ON" || msg == "1") || toLowerCaseJs msg == "true"

/-- Case-insensitive string equality (used only to state the spec's
reading of the toggle predicate, for comparison with `parseToggle`). -/
def eqIgnoreCase (a b : String) : Bool :=
  toLowerCaseJs a == toLowerCaseJs b

/-- The `makeTopic(...parts)` helper: `parts.join('/')`. -/
def makeTopic : List String → String
  | [] => ""
  | [p] => p
  | p :: ps => p ++ "/" ++ makeTopic ps

/-- Command topic `we/<nodeId>/<entity>/set`. -/
def cmdTopic (nodeId entity : String) : String :=
  makeTopic ["we", nodeId, entity, "set"]

/-- State topic `we/<nodeId>/<entity>/state`. -/
def stTopic (nodeId entity : String) : String :=
  makeTopic ["we", nodeId, entity, "state"]

/-- The `haDiscoveryTopic(domain, nodeId, objectId)` helper. -/
def haDiscoveryTopic (domain nodeId objectId : String) : String :=
  "homeassistant/" ++ domain ++ "/" ++ nodeId ++ "/" ++ objectId ++ "/config"

/-- One address record of `os.networkInterfaces()`. -/
structure IfAddr where
  family : String
  internal : Bool
  address : String
  deriving DecidableEq

/-- JS `String.prototype.startsWith` on character lists. -/
def startsWithChars : List Char → List Char → Bool
  | _, [] => true
  | [], _ :: _ => false
  | c :: cs, p :: ps => (c = p) && startsWithChars cs ps

/-- JS `a.address.startsWith(pref)`. -/
def startsWithJs (s pat : String) : Bool :=
  startsWithChars s.data pat.data

/-- First pass of `getLocalIPv4`: for each interface in enumeration
order, return the first non-internal IPv4 address whose textual form
starts with the preferred prefix. -/
def findPrefAddr (pref : String) : List (String × List IfAddr) → Option String
  | [] => none
  | (_, addrs) :: rest =>
    match addrs.find? (fun a =>
        a.family == "IPv4" && !a.internal && startsWithJs a.address pref) with
    | some a => some a.address
    | none => findPrefAddr pref rest

/-- Second pass of `getLocalIPv4`: the first non-internal IPv4 address in
enumeration order. -/
def findAnyAddr : List (String × List IfAddr) → Option String
  | [] => none
  | (_, addrs) :: rest =>
    match addrs.find? (fun a => a.family == "IPv4" && !a.internal) with
    | some a => some a.address
    | none => findAnyAddr rest

/-- The `getLocalIPv4` function (identical in all variants): preferred
prefix pass, then any non-internal IPv4, then the loopback fallback.
The source parameter default `'192.168.178'` is passed explicitly by
the two call sites that rely on it. -/
def getLocalIPv4 (ifaces : List (String × List IfAddr))
    (prefer : String) : String :=
  match findPrefAddr prefer ifaces with
  | some a => a
  | none =>
    match findAnyAddr ifaces with
    | some a => a
    | none => "127.0.0.1"

/-- The `localIp.replace(/\./g, '_')` substitution. -/
def replaceDots (s : String) : String :=
  String.mk (s.data.map (fun c => if c = '.' then '_' else c))

/-- The node identifier computed in `main`:
`wallpaper_engine_${localIp.replace(/\./g, '_')}`. -/
def nodeIdOf (ifaces : List (String × List IfAddr)) : String :=
  "wallpaper_engine_" ++ replaceDots (getLocalIPv4 ifaces "192.168.178")

/-- JSON values as produced/consumed by the program.  Numbers are
restricted to integers: every number the claims touch is an integer. -/
inductive Json where
  | null : Json
  | bool (b : Bool) : Json
  | num (n : Int) : Json
  | str (s : String) : Json
  | arr (elems : List Json) : Json
  | obj (fields : List (String × Json)) : Json

/-- String escaping of `JSON.stringify` for the characters that need it
in the strings this program produces. -/
def escChar (c : Char) : String :=
  if c = '"' then "\\\"" else if c = '\\' then "\\\\" else String.singleton c

/-- Escape a whole string for `JSON.stringify`. -/
def escapeJs (s : String) : String :=
  s.data.foldl (fun acc c => acc ++ escChar c) ""

mutual

/-- The `JSON.stringify` rendering (no spacing, fields in insertion order, exactly as
the V8 builtin renders the values this program builds). -/
def Json.stringify : Json → String
  | .null => "null"
  | .bool b => if b then "true" else "false"
  | .num n => toString n
  | .str s => "\"" ++ escapeJs s ++ "\""
  | .arr xs => "[" ++ stringifyElems xs ++ "]"
  | .obj fs => "\x7b" ++ stringifyFields fs ++ "\x7d"

/-- Comma-separated rendering of array elements. -/
def stringifyElems : List Json → String
  | [] => ""
  | [x] => Json.stringify x
  | x :: xs => Json.stringify x ++ "," ++ stringifyElems xs

/-- Comma-separated rendering of object fields. -/
def stringifyFields : List (String × Json) → String
  | [] => ""
  | [(k, v)] => "\"" ++ escapeJs k ++ "\":" ++ Json.stringify v
  | (k, v) :: fs =>
    "\"" ++ escapeJs k ++ "\":" ++ Json.stringify v ++ "," ++ stringifyFields fs

end

/-- Monitor argument of `we.wallpaper().load(id, monitor)` as JS passes
it: absent (`undefined`), `NaN` (from `parseInt` on a non-number), or a
number. -/
inductive JsMon where
  | undef : JsMon
  | nan : JsMon
  | num (n : Int) : JsMon
  deriving DecidableEq

/-- One attempted call against the Wallpaper Engine control API. -/
inductive ApiCall where
  | showIcons | hideIcons | mute | unmute | pause | play | stop
  | loadWallpaper (id : String) (monitor : JsMon)
  | loadProfile (name : String)
  | applyProperties (props : Json)
  | listWallpapersQ | listProfilesQ | currentWallpaperQ

/-- One observable effect of a handler or refresh pass, in program
order: a control-API call attempt, or an MQTT publish with its retained
flag. -/
inductive Effect where
  | call (c : ApiCall)
  | publish (topic payload : String) (retained : Bool)

/-- JS falsy fallback `w.id || w.path`: `undefined` or the empty string
falls back to the path. -/
def jsOr (id? : Option String) (path : String) : String :=
  match id? with
  | none => path
  | some s => if s = "" then path else s

/-- A raw wallpaper record as returned by `weApi.listWallpapers()`. -/
structure RawWallpaper where
  id : Option String
  path : String
  title : String

/-- The in-memory catalog entry `{ id: w.id || w.path, title: w.title }`. -/
structure WallpaperEntry where
  id : String
  title : String
  deriving DecidableEq

/-- Map a raw record to the catalog entry, as `wp.map(...)` does. -/
def entryOfRaw (w : RawWallpaper) : WallpaperEntry :=
  ⟨jsOr w.id w.path, w.title⟩

/-- The record returned by `weApi.wallpaper().current()`.  A `properties`
value of `none` models a missing/undefined property mapping. -/
structure CurrentWp where
  id : String
  title : String
  description : String
  preview : String
  tags : List String
  path : String
  properties : Option Json

/-- Outcome oracle for the external control API: whether each
fire-and-forget call succeeds, and what each query returns (`none`
modelling a thrown error, as all these calls are fallible promises). -/
structure ApiOracle where
  showIconsOk : Bool := true
  hideIconsOk : Bool := true
  muteOk : Bool := true
  unmuteOk : Bool := true
  pauseOk : Bool := true
  playOk : Bool := true
  stopOk : Bool := true
  loadWallpaperOk : Bool := true
  loadProfileOk : Bool := true
  applyPropsOk : Bool := true
  listWallpapers : Option (List RawWallpaper) := some []
  listProfiles : Option (Option (List String)) := some (some [])
  currentWallpaper : Option CurrentWp := none

/-- The shadow booleans `state = { showIcons, muted, paused }`. -/
structure ShadowState where
  showIcons : Bool
  muted : Bool
  paused : Bool
  deriving DecidableEq

/-- Render a shadow boolean as the published payload,
`b ? 'ON' : 'OFF'`. -/
def onOff (b : Bool) : String := if b then "ON" else "OFF"

/-- The `show_icons` command case (identical in all three variants):
interpret the payload, call `showIcons`/`hideIcons`, update the shadow
boolean, then publish it retained as ON/OFF; a throw from the control
call is absorbed by the handler's enclosing catch, so the update and the
publish are skipped. -/
def handleShowIcons (o : ApiOracle) (st : ShadowState) (nodeId msg : String) :
    ShadowState × List Effect :=
  if parseToggle msg then
    if o.showIconsOk then
      let st' := { st with showIcons := true }
      (st', [.call .showIcons,
             .publish (stTopic nodeId "show_icons") (onOff st'.showIcons) true])
    else (st, [.call .showIcons])
  else
    if o.hideIconsOk then
      let st' := { st with showIcons := false }
      (st', [.call .hideIcons,
             .publish (stTopic nodeId "show_icons") (onOff st'.showIcons) true])
    else (st, [.call .hideIcons])

/-- The `muted` command case (identical in all three variants), with the
same throw-aborts-the-rest semantics as `handleShowIcons`. -/
def handleMuted (o : ApiOracle) (st : ShadowState) (nodeId msg : String) :
    ShadowState × List Effect :=
  if parseToggle msg then
    if o.muteOk then
      let st' := { st with muted := true }
      (st', [.call .mute,
             .publish (stTopic nodeId "muted") (onOff st'.muted) true])
    else (st, [.call .mute])
  else
    if o.unmuteOk then
      let st' := { st with muted := false }
      (st', [.call .unmute,
             .publish (stTopic nodeId "muted") (onOff st'.muted) true])
    else (st, [.call .unmute])

/-- The `paused` command case of main.ts and part_000: payload ignored,
one `pause()` call, flip the shadow boolean, publish it retained. -/
def handlePausedToggle (o : ApiOracle) (st : ShadowState) (nodeId _msg : String) :
    ShadowState × List Effect :=
  if o.pauseOk then
    let st' := { st with paused := !st.paused }
    (st', [.call .pause,
           .publish (stTopic nodeId "paused") (onOff st'.paused) true])
  else (st, [.call .pause])

/-- The `paused` command case of part_001: the payload is interpreted,
`pause()`/`play()` is called, but the handler mistakenly assigns the
`muted` shadow field (`state.muted = true/false` in the source); the
publish then reads the — unchanged — `paused` field. -/
def handlePausedP1 (o : ApiOracle) (st : ShadowState) (nodeId msg : String) :
    ShadowState × List Effect :=
  if parseToggle msg then
    if o.pauseOk then
      let st' := { st with muted := true }
      (st', [.call .pause,
             .publish (stTopic nodeId "paused") (onOff st'.paused) true])
    else (st, [.call .pause])
  else
    if o.playOk then
      let st' := { st with muted := false }
      (st', [.call .play,
             .publish (stTopic nodeId "paused") (onOff st'.paused) true])
    else (st, [.call .play])

/-- The `button_play` command case: `play()`, then a non-retained
`pressed` acknowledgment (skipped if the call throws). -/
def handleButtonPlay (o : ApiOracle) (nodeId : String) : List Effect :=
  if o.playOk then
    [.call .play, .publish (stTopic nodeId "button_play") "pressed" false]
  else [.call .play]

/-- The `button_stop` command case: `stop()`, then a non-retained
`pressed` acknowledgment (skipped if the call throws). -/
def handleButtonStop (o : ApiOracle) (nodeId : String) : List Effect :=
  if o.stopOk then
    [.call .stop, .publish (stTopic nodeId "button_stop") "pressed" false]
  else [.call .stop]

/-- The `select_wallpaper` command case of main.ts: the payload is passed
directly to `we.wallpaper().load(msg)` (no monitor argument, no catalog
resolution), then echoed retained on the state topic unless the load
threw. -/
def handleSelectWallpaperMain (o : ApiOracle) (nodeId msg : String) : List Effect :=
  if o.loadWallpaperOk then
    [.call (.loadWallpaper msg .undef),
     .publish (stTopic nodeId "select_wallpaper") msg true]
  else [.call (.loadWallpaper msg .undef)]

/-- The option rendering `${w.title} (${w.id})` used by part_001 both to
build options and to resolve an incoming payload. -/
def renderOption (w : WallpaperEntry) : String :=
  w.title ++ " (" ++ w.id ++ ")"

/-- Leading decimal digits of a character list. -/
def leadDigits : List Char → List Char
  | [] => []
  | c :: cs => if c.isDigit then c :: leadDigits cs else []

/-- Decimal value of a digit list. -/
def digitsToNat (ds : List Char) : Nat :=
  ds.foldl (fun acc c => acc * 10 + (c.toNat - '0'.toNat)) 0

/-- JS `parseInt` on the monitor selector, modelled for optional
whitespace, an optional sign and decimal digits (the selectors this
program produces are `all` or a small decimal index);
`parseInt(undefined)` is `NaN`. -/
def parseIntJs : Option String → JsMon
  | none => .nan
  | some s =>
    let cs := s.data.dropWhile (fun c => c.isWhitespace)
    match cs with
    | '-' :: rest =>
      let ds := leadDigits rest
      if ds = [] then .nan else .num (-(digitsToNat ds : Int))
    | '+' :: rest =>
      let ds := leadDigits rest
      if ds = [] then .nan else .num (digitsToNat ds : Int)
    | _ =>
      let ds := leadDigits cs
      if ds = [] then .nan else .num (digitsToNat ds : Int)

/-- The `select_wallpaper` command case of part_001: split the payload on
`|`, resolve it against the in-memory catalog by the `title (id)`
rendering, then either load once per monitor in the fixed set `[0,1,2]`
(selector `all`) or once with the parsed index; every load is wrapped in
its own try/catch, so all loads are attempted and the trailing
unconditional publish of the raw payload always runs. -/
def handleSelectWallpaperP1 (wallpapers : List WallpaperEntry)
    (nodeId msg : String) : List Effect :=
  let parts := splitPipe msg
  let idWithTitle := parts.headD ""
  let monitorStr := parts[1]?
  let monitorIndex : JsMon :=
    if monitorStr == some "all" then .undef else parseIntJs monitorStr
  let found := wallpapers.find? (fun w => renderOption w == idWithTitle)
  let loads : List Effect :=
    match monitorIndex with
    | .undef =>
      match found with
      | some m =>
        ([0, 1, 2] : List Int).map (fun i => .call (.loadWallpaper m.id (.num i)))
      | none => []
    | mi =>
      match found with
      | some m => [.call (.loadWallpaper m.id mi)]
      | none => []
  loads ++ [.publish (stTopic nodeId "select_wallpaper") msg true]

/-- The `select_profile` command case of main.ts and part_000: one
`we.profile().load(msg)` call and nothing else — in particular no state
publish; the trace is the same whether or not the call throws. -/
def handleSelectProfileMain (msg : String) : List Effect :=
  [.call (.loadProfile msg)]

/-- The `select_profile` command case of part_001: load, then echo the
payload retained on the state topic unless the load threw. -/
def handleSelectProfileP1 (o : ApiOracle) (nodeId msg : String) : List Effect :=
  if o.loadProfileOk then
    [.call (.loadProfile msg),
     .publish (stTopic nodeId "select_profile") msg true]
  else [.call (.loadProfile msg)]

/-- The `properties` command case of main.ts and part_001 (identical):
`JSON.parse` (modelled as the oracle parameter `jsonParse`), apply, then
publish the re-stringified object retained to `last_set`; the inner
catch absorbs both a parse error and an apply error, so a failure at
either point produces no further effect. -/
def handlePropertiesMain (jsonParse : String → Option Json) (o : ApiOracle)
    (nodeId msg : String) : List Effect :=
  match jsonParse msg with
  | none => []
  | some props =>
    if o.applyPropsOk then
      [.call (.applyProperties props),
       .publish (makeTopic ["we", nodeId, "properties", "last_set"])
         (Json.stringify props) true]
    else [.call (.applyProperties props)]

/-- Compact state JSON of the current wallpaper,
`JSON.stringify({ id: cw.id, title: cw.title })`. -/
def cwStateJson (cw : CurrentWp) : Json :=
  .obj [("id", .str cw.id), ("title", .str cw.title)]

/-- Full attributes JSON of the current wallpaper.  `JSON.stringify`
omits object entries whose value is `undefined`, so a missing
`properties` field drops out of the rendering. -/
def cwAttrsJson (cw : CurrentWp) : Json :=
  .obj ([("title", .str cw.title), ("id", .str cw.id),
         ("description", .str cw.description), ("preview", .str cw.preview),
         ("tags", .arr (cw.tags.map Json.str)), ("path", .str cw.path)] ++
        (match cw.properties with
         | some p => [("properties", p)]
         | none => []))

/-- The `publishCurrentWallpaper` helper of part_000: query the current
wallpaper and publish compact state, attributes, the select state set to
the wallpaper id, and `last_set` set to `cw.properties || {}` — all
retained; its own catch absorbs a query failure, producing just the
failed query attempt. -/
def publishCurrentWallpaperP000 (o : ApiOracle) (nodeId : String) : List Effect :=
  match o.currentWallpaper with
  | none => [.call .currentWallpaperQ]
  | some cw =>
    [.call .currentWallpaperQ,
     .publish (stTopic nodeId "current_wallpaper") (Json.stringify (cwStateJson cw)) true,
     .publish (makeTopic ["we", nodeId, "current_wallpaper", "attributes"])
       (Json.stringify (cwAttrsJson cw)) true,
     .publish (stTopic nodeId "select_wallpaper") cw.id true,
     .publish (makeTopic ["we", nodeId, "properties", "last_set"])
       (Json.stringify (cw.properties.getD (Json.obj []))) true]

/-- The `properties` command case of part_000: parse, apply, then
republish the current wallpaper (there is no direct publish of the
payload); parse or apply failure is absorbed by the inner catch. -/
def handlePropertiesP000 (jsonParse : String → Option Json) (o : ApiOracle)
    (nodeId msg : String) : List Effect :=
  match jsonParse msg with
  | none => []
  | some props =>
    if o.applyPropsOk then
      .call (.applyProperties props) :: publishCurrentWallpaperP000 o nodeId
    else [.call (.applyProperties props)]

/-- The `haDevice(ip)` descriptor of main.ts and part_001 (no
`via_device`). -/
def haDeviceMain (ip : String) : Json :=
  .obj [("identifiers", .arr [.str ("wallpaper-engine-" ++ ip)]),
        ("manufacturer", .str "Wallpaper Engine"),
        ("model", .str "Wallpaper Engine (local)"),
        ("name", .str ("Wallpaper Engine (" ++ ip ++ ")"))]

/-- The `haDevice(ip)` descriptor of part_000, which adds
`via_device: null`. -/
def haDeviceP000 (ip : String) : Json :=
  .obj [("identifiers", .arr [.str ("wallpaper-engine-" ++ ip)]),
        ("manufacturer", .str "Wallpaper Engine"),
        ("model", .str "Wallpaper Engine (local)"),
        ("name", .str ("Wallpaper Engine (" ++ ip ++ ")")),
        ("via_device", .null)]

/-- Discovery payload re-published for the wallpaper select by the
refresh passes. -/
def selectWallpaperCfg (nodeId : String) (options : List String)
    (device : Json) : Json :=
  .obj [("name", .str "Wallpaper"),
        ("unique_id", .str (nodeId ++ "_select_wallpaper")),
        ("command_topic", .str (cmdTopic nodeId "select_wallpaper")),
        ("state_topic", .str (stTopic nodeId "select_wallpaper")),
        ("options", .arr (options.map Json.str)),
        ("device", device)]

/-- Discovery payload re-published for the profile select by the refresh
passes. -/
def selectProfileCfg (nodeId : String) (options : List String)
    (device : Json) : Json :=
  .obj [("name", .str "Profile"),
        ("unique_id", .str (nodeId ++ "_select_profile")),
        ("command_topic", .str (cmdTopic nodeId "select_profile")),
        ("state_topic", .str (stTopic nodeId "select_profile")),
        ("options", .arr (options.map Json.str)),
        ("device", device)]

/-- JSON rendering of one in-memory catalog entry for the raw list
topics. -/
def entryJson (w : WallpaperEntry) : Json :=
  .obj [("id", .str w.id), ("title", .str w.title)]

/-- The in-memory catalogs replaced wholesale by each refresh pass. -/
structure Catalogs where
  wallpapers : List WallpaperEntry
  profiles : List String
  deriving DecidableEq

/-- The `refreshWallpapersProfiles` pass of main.ts.  The whole body sits
in ONE try/catch: a throw at any step ends the pass, keeping the effects
produced so far.  `weApi.listWallpapers()` throws ⇒ nothing further is
attempted; `listProfiles()` throws ⇒ the catalog was already replaced
but no publish happens; otherwise the two select re-registrations and
the two raw list publishes follow.  The device descriptor re-resolves
the local address via `getLocalIPv4()`. -/
def refreshMain (o : ApiOracle) (ifaces : List (String × List IfAddr))
    (nodeId : String) (cat : Catalogs) : Catalogs × List Effect :=
  match o.listWallpapers with
  | none => (cat, [.call .listWallpapersQ])
  | some wp =>
    let wallpapers := wp.map entryOfRaw
    match o.listProfiles with
    | none => ({ cat with wallpapers := wallpapers },
               [.call .listWallpapersQ, .call .listProfilesQ])
    | some profs =>
      let profiles := profs.getD []
      let dev := haDeviceMain (getLocalIPv4 ifaces "192.168.178")
      ({ wallpapers := wallpapers, profiles := profiles },
       [.call .listWallpapersQ, .call .listProfilesQ,
        .publish (haDiscoveryTopic "select" nodeId "select_wallpaper")
          (Json.stringify (selectWallpaperCfg nodeId (wallpapers.map (fun w => w.id)) dev)) true,
        .publish (haDiscoveryTopic "select" nodeId "select_profile")
          (Json.stringify (selectProfileCfg nodeId profiles dev)) true,
        .publish (makeTopic ["we", nodeId, "wallpapers", "list"])
          (Json.stringify (.arr (wallpapers.map entryJson))) true,
        .publish (makeTopic ["we", nodeId, "profiles", "list"])
          (Json.stringify (.arr (profiles.map Json.str))) true])

/-- The `refreshWallpapersProfilesAndCurrent` pass of part_000.  Same
single enclosing try/catch as `refreshMain`; between the select
re-registrations and the raw list publishes it runs
`publishCurrentWallpaper`, whose failures are absorbed by its own inner
catch.  The device descriptor uses the captured `localIp`. -/
def refreshP000 (o : ApiOracle) (nodeId localIp : String) (cat : Catalogs) :
    Catalogs × List Effect :=
  match o.listWallpapers with
  | none => (cat, [.call .listWallpapersQ])
  | some wp =>
    let wallpapers := wp.map entryOfRaw
    match o.listProfiles with
    | none => ({ cat with wallpapers := wallpapers },
               [.call .listWallpapersQ, .call .listProfilesQ])
    | some profs =>
      let profiles := profs.getD []
      let dev := haDeviceP000 localIp
      ({ wallpapers := wallpapers, profiles := profiles },
       [.call .listWallpapersQ, .call .listProfilesQ,
        .publish (haDiscoveryTopic "select" nodeId "select_wallpaper")
          (Json.stringify (selectWallpaperCfg nodeId (wallpapers.map (fun w => w.id)) dev)) true,
        .publish (haDiscoveryTopic "select" nodeId "select_profile")
          (Json.stringify (selectProfileCfg nodeId profiles dev)) true] ++
       publishCurrentWallpaperP000 o nodeId ++
       [.publish (makeTopic ["we", nodeId, "wallpapers", "list"])
          (Json.stringify (.arr (wallpapers.map entryJson))) true,
        .publish (makeTopic ["we", nodeId, "profiles", "list"])
          (Json.stringify (.arr (profiles.map Json.str))) true])

/-- The nine command topics of the main.ts `switch`. -/
inductive Command where
  | showIcons | muted | paused | buttonPlay | buttonStop
  | selectWallpaper | selectProfile | properties | refresh
  deriving DecidableEq

/-- Topic dispatch of the main.ts `switch (topic)`, in source case
order; an unrecognized topic falls through to no command. -/
def commandOfTopic (nodeId topic : String) : Option Command :=
  if topic == cmdTopic nodeId "show_icons" then some .showIcons
  else if topic == cmdTopic nodeId "muted" then some .muted
  else if topic == cmdTopic nodeId "paused" then some .paused
  else if topic == cmdTopic nodeId "button_play" then some .buttonPlay
  else if topic == cmdTopic nodeId "button_stop" then some .buttonStop
  else if topic == cmdTopic nodeId "select_wallpaper" then some .selectWallpaper
  else if topic == cmdTopic nodeId "select_profile" then some .selectProfile
  else if topic == cmdTopic nodeId "properties" then some .properties
  else if topic == cmdTopic nodeId "refresh" then some .refresh
  else none

/-- Whole mutable state of the main.ts program: shadow booleans plus the
in-memory catalogs. -/
structure MainState where
  shadow : ShadowState
  cat : Catalogs

/-- One dispatched command of the main.ts message handler. -/
def handleCommandMain (jsonParse : String → Option Json) (o : ApiOracle)
    (ifaces : List (String × List IfAddr)) (nodeId : String)
    (st : MainState) : Command → String → MainState × List Effect
  | .showIcons, msg =>
    ({ st with shadow := (handleShowIcons o st.shadow nodeId msg).1 },
     (handleShowIcons o st.shadow nodeId msg).2)
  | .muted, msg =>
    ({ st with shadow := (handleMuted o st.shadow nodeId msg).1 },
     (handleMuted o st.shadow nodeId msg).2)
  | .paused, msg =>
    ({ st with shadow := (handlePausedToggle o st.shadow nodeId msg).1 },
     (handlePausedToggle o st.shadow nodeId msg).2)
  | .buttonPlay, _ => (st, handleButtonPlay o nodeId)
  | .buttonStop, _ => (st, handleButtonStop o nodeId)
  | .selectWallpaper, msg => (st, handleSelectWallpaperMain o nodeId msg)
  | .selectProfile, msg => (st, handleSelectProfileMain msg)
  | .properties, msg => (st, handlePropertiesMain jsonParse o nodeId msg)
  | .refresh, _ =>
    ({ st with cat := (refreshMain o ifaces nodeId st.cat).1 },
     (refreshMain o ifaces nodeId st.cat).2)

/-- The full main.ts message handler: topic dispatch plus the dispatched
command. -/
def handleMessageMain (jsonParse : String → Option Json) (o : ApiOracle)
    (ifaces : List (String × List IfAddr)) (nodeId : String)
    (st : MainState) (topic msg : String) : MainState × List Effect :=
  match commandOfTopic nodeId topic with
  | none => (st, [])
  | some c => handleCommandMain jsonParse o ifaces nodeId st c msg

/-- The per-entity state and attributes topics of this node (the topics
the spec's retained-invariant ranges over). -/
def stateAttrTopics (nodeId : String) : List String :=
  [stTopic nodeId "show_icons", stTopic nodeId "muted", stTopic nodeId "paused",
   stTopic nodeId "button_play", stTopic nodeId "button_stop",
   stTopic nodeId "select_wallpaper", stTopic nodeId "select_profile",
   makeTopic ["we", nodeId, "properties", "last_set"],
   stTopic nodeId "current_wallpaper",
   makeTopic ["we", nodeId, "current_wallpaper", "attributes"]]

/-- The two momentary-button acknowledgment topics, whose publishes the
source explicitly marks `retain: false`. -/
def buttonAckTopics (nodeId : String) : List String :=
  [stTopic nodeId "button_play", stTopic nodeId "button_stop"]

/-- Claim C6: a toggle payload is interpreted as true exactly when it equals
"ON", equals "1", or case-insensitively equals "true"; every other
string, including the empty string and "OFF", is interpreted as false. -/
theorem c6_toggle_truthiness :
    (∀ s : String, parseToggle s = true ↔
        (s = "ON" ∨ s = "1" ∨ eqIgnoreCase s "true" = true)) ∧
    parseToggle "ON" = true ∧ parseToggle "1" = true ∧
    parseToggle "true" = true ∧ parseToggle "TRUE" = true ∧
    parseToggle "tRuE" = true ∧
    parseToggle "" = false ∧ parseToggle "OFF" = false := by
  have htrue : toLowerCaseJs "true" = "true" := by decide
  refine ⟨fun s => ?_, by decide, by decide, by decide, by decide, by decide,
    by decide, by decide⟩
  simp only [parseToggle, Bool.or_eq_true, beq_iff_eq, eqIgnoreCase, htrue]
  tauto

/-- Claim C9: the resolved node identifier is deterministic for a fixed
interface enumeration, and none of its characters is a literal dot. -/
theorem c9_node_identifier (ifaces : List (String × List IfAddr)) :
    nodeIdOf ifaces = nodeIdOf ifaces ∧
    (nodeIdOf ifaces).data.all (fun c => !(c == '.')) = true := by
  refine ⟨rfl, ?_⟩
  show (("wallpaper_engine_" ++ replaceDots (getLocalIPv4 ifaces "192.168.178")).data.all
    (fun c => !(c == '.'))) = true
  rw [String.data_append, List.all_append, Bool.and_eq_true]
  refine ⟨by decide, ?_⟩
  show ((String.mk ((getLocalIPv4 ifaces "192.168.178").data.map
    (fun c => if c = '.' then '_' else c))).data.all (fun c => !(c == '.'))) = true
  rw [List.all_map]
  refine List.all_eq_true.mpr ?_
  intro c _
  by_cases h : c = '.' <;> simp [h]

def catalog7 : List WallpaperEntry := [⟨"abc123", "Sunset"⟩]

/-- Claim C7: the payload "Sunset (abc123)|all" against a catalog containing
id "abc123" with title "Sunset" issues exactly one load per monitor in
the fixed set 0, 1, 2, each with id "abc123", followed by a retained
publish of the literal payload on the select state topic. -/
theorem c7_select_all_monitors :
    handleSelectWallpaperP1 catalog7 "n" "Sunset (abc123)|all" =
      [Effect.call (ApiCall.loadWallpaper "abc123" (JsMon.num 0)),
       Effect.call (ApiCall.loadWallpaper "abc123" (JsMon.num 1)),
       Effect.call (ApiCall.loadWallpaper "abc123" (JsMon.num 2)),
       Effect.publish (stTopic "n" "select_wallpaper") "Sunset (abc123)|all" true] :=
  rfl



/-- Helper: ON/OFF rendering always yields one of the two literals. -/
theorem onOff_cases (b : Bool) : onOff b = "ON" ∨ onOff b = "OFF" := by
  cases b <;> simp [onOff]

/-- Claim C10: for the icons and mute toggles (identical in all variants), a
rejected control call is absorbed by the handler's catch: the shadow
state is unchanged and the trace holds only the failed call, with no
publish. -/
theorem c10_toggle_error_silent (o : ApiOracle) (st : ShadowState) (n msg : String) :
    (parseToggle msg = true → o.showIconsOk = false →
      handleShowIcons o st n msg = (st, [Effect.call ApiCall.showIcons])) ∧
    (parseToggle msg = false → o.hideIconsOk = false →
      handleShowIcons o st n msg = (st, [Effect.call ApiCall.hideIcons])) ∧
    (parseToggle msg = true → o.muteOk = false →
      handleMuted o st n msg = (st, [Effect.call ApiCall.mute])) ∧
    (parseToggle msg = false → o.unmuteOk = false →
      handleMuted o st n msg = (st, [Effect.call ApiCall.unmute])) := by
  refine ⟨fun h1 h2 => ?_, fun h1 h2 => ?_, fun h1 h2 => ?_, fun h1 h2 => ?_⟩ <;>
    simp [handleShowIcons, handleMuted, h1, h2]

def oFail : ApiOracle :=
  { showIconsOk := false, hideIconsOk := false, muteOk := false,
    unmuteOk := false, pauseOk := false, playOk := false, stopOk := false,
    loadWallpaperOk := false, loadProfileOk := false, applyPropsOk := false }

def st0 : ShadowState := { showIcons := true, muted := false, paused := false }

/-- Witness for C10 at the concrete payload "ON" with a failing API. -/
theorem c10_toggle_error_silent_witness :
    parseToggle "ON" = true ∧ oFail.showIconsOk = false ∧
    handleShowIcons oFail st0 "n" "ON" = (st0, [Effect.call ApiCall.showIcons]) :=
  ⟨by decide, by decide,
   (c10_toggle_error_silent oFail st0 "n" "ON").1 (by decide) (by decide)⟩

/-- Claim C2: whenever a toggle handler (icons, mute, pause — in any variant)
publishes on that toggle's state topic, the payload is exactly "ON" or
"OFF" and equals the toggle's shadow boolean in the post-handler
state. -/
theorem c2_toggle_state_matches (o : ApiOracle) (st : ShadowState) (n msg : String) :
    (∀ p r, Effect.publish (stTopic n "show_icons") p r ∈ (handleShowIcons o st n msg).2 →
      (p = "ON" ∨ p = "OFF") ∧ p = onOff (handleShowIcons o st n msg).1.showIcons) ∧
    (∀ p r, Effect.publish (stTopic n "muted") p r ∈ (handleMuted o st n msg).2 →
      (p = "ON" ∨ p = "OFF") ∧ p = onOff (handleMuted o st n msg).1.muted) ∧
    (∀ p r, Effect.publish (stTopic n "paused") p r ∈ (handlePausedToggle o st n msg).2 →
      (p = "ON" ∨ p = "OFF") ∧ p = onOff (handlePausedToggle o st n msg).1.paused) ∧
    (∀ p r, Effect.publish (stTopic n "paused") p r ∈ (handlePausedP1 o st n msg).2 →
      (p = "ON" ∨ p = "OFF") ∧ p = onOff (handlePausedP1 o st n msg).1.paused) := by
  refine ⟨fun p r hm => ?_, fun p r hm => ?_, fun p r hm => ?_, fun p r hm => ?_⟩
  · by_cases ht : parseToggle msg <;> by_cases hok : o.showIconsOk <;>
      by_cases hok2 : o.hideIconsOk <;>
      simp [handleShowIcons, ht, hok, hok2] at hm ⊢ <;>
      rcases hm with ⟨rfl, -⟩ <;> exact ⟨onOff_cases _, rfl⟩
  · by_cases ht : parseToggle msg <;> by_cases hok : o.muteOk <;>
      by_cases hok2 : o.unmuteOk <;>
      simp [handleMuted, ht, hok, hok2] at hm ⊢ <;>
      rcases hm with ⟨rfl, -⟩ <;> exact ⟨onOff_cases _, rfl⟩
  · by_cases hok : o.pauseOk <;>
      simp [handlePausedToggle, hok] at hm ⊢ <;>
      rcases hm with ⟨rfl, -⟩ <;> exact ⟨onOff_cases _, rfl⟩
  · by_cases ht : parseToggle msg <;> by_cases hok : o.pauseOk <;>
      by_cases hok2 : o.playOk <;>
      simp [handlePausedP1, ht, hok, hok2] at hm ⊢ <;>
      rcases hm with ⟨rfl, -⟩ <;> exact ⟨onOff_cases _, rfl⟩

def oAll : ApiOracle := {}

/-- Witness for C2: the accepted "ON" command on the icons toggle
publishes exactly "ON", matching the updated shadow boolean. -/
theorem c2_toggle_state_matches_witness :
    Effect.publish (stTopic "n" "show_icons") "ON" true
        ∈ (handleShowIcons oAll st0 "n" "ON").2 ∧
    ("ON" = "ON" ∨ ("ON" : String) = "OFF") ∧
    "ON" = onOff (handleShowIcons oAll st0 "n" "ON").1.showIcons :=
  ⟨by simp [handleShowIcons, oAll, parseToggle, onOff],
   (c2_toggle_state_matches oAll st0 "n" "ON").1 "ON" true
     (by simp [handleShowIcons, oAll, parseToggle, onOff])⟩



/-- Effect classifier: a wallpaper load call. -/
def isLoadCall : Effect → Bool
  | .call (.loadWallpaper _ _) => true
  | _ => false

/-- Effect classifier: the profile-catalog query. -/
def isProfilesQuery : Effect → Bool
  | .call .listProfilesQ => true
  | _ => false

/-- Effect classifier: the current-wallpaper query. -/
def isCurrentQuery : Effect → Bool
  | .call .currentWallpaperQ => true
  | _ => false

/-- Effect classifier: any MQTT publish. -/
def isPublishE : Effect → Bool
  | .publish _ _ _ => true
  | _ => false

/-- Current wallpaper used by concrete scenarios: no property mapping. -/
def cwNoProps : CurrentWp :=
  { id := "w1", title := "T", description := "", preview := "", tags := [],
    path := "p", properties := none }

/-- Oracle for the C1 scenario: the wallpaper-catalog query throws, the
other queries would succeed. -/
def oWpFail : ApiOracle :=
  { listWallpapers := none, listProfiles := some (some ["p1"]),
    currentWallpaper := some cwNoProps }

/-- Empty starting catalogs. -/
def cat0 : Catalogs := { wallpapers := [], profiles := [] }

/-- Counterexample to C1: with a failing wallpaper-catalog query, the
part_000 refresh pass attempts nothing else — no profile query, no
current-wallpaper query, no publish of any kind. -/
theorem c1_counterexample :
    oWpFail.listWallpapers = none ∧
    (refreshP000 oWpFail "n" "ip" cat0).2 = [Effect.call ApiCall.listWallpapersQ] ∧
    ((refreshP000 oWpFail "n" "ip" cat0).2.all
      (fun e => !(isProfilesQuery e) && !(isCurrentQuery e) && !(isPublishE e))) = true :=
  ⟨rfl, rfl, rfl⟩

/-- Claim C1 as amended: a throw in the wallpaper-catalog query is caught by the
single try/catch wrapping the whole pass, so the pass ends with only
that failed query attempted — in both refresh variants. -/
theorem c1_amended (o : ApiOracle) (ifaces : List (String × List IfAddr))
    (n ip : String) (cat : Catalogs) (h : o.listWallpapers = none) :
    (refreshP000 o n ip cat).2 = [Effect.call ApiCall.listWallpapersQ] ∧
    (refreshMain o ifaces n cat).2 = [Effect.call ApiCall.listWallpapersQ] := by
  constructor <;> simp [refreshP000, refreshMain, h]

/-- Witness for C1 amended at the concrete failing oracle. -/
theorem c1_amended_witness :
    oWpFail.listWallpapers = none ∧
    (refreshP000 oWpFail "n" "ip" cat0).2 = [Effect.call ApiCall.listWallpapersQ] ∧
    (refreshMain oWpFail [] "n" cat0).2 = [Effect.call ApiCall.listWallpapersQ] :=
  ⟨rfl, (c1_amended oWpFail [] "n" "ip" cat0 rfl).1,
   (c1_amended oWpFail [] "n" "ip" cat0 rfl).2⟩

/-- Counterexample to C3: an unresolvable payload (empty catalog) makes
zero load calls, but the part_001 dispatcher still publishes the literal
payload, retained, to the select state topic. -/
theorem c3_counterexample :
    ((handleSelectWallpaperP1 [] "n" "Sunset (abc123)|all").all
        (fun e => !(isLoadCall e))) = true ∧
    handleSelectWallpaperP1 [] "n" "Sunset (abc123)|all" =
      [Effect.publish (stTopic "n" "select_wallpaper") "Sunset (abc123)|all" true] :=
  ⟨rfl, rfl⟩

/-- Claim C3 as amended: when the payload resolves to no catalog entry, the
part_001 dispatcher makes zero load calls, but the trailing publish of
the payload to the select state topic is unconditional, so the trace is
exactly that one retained publish. -/
theorem c3_amended (cat : List WallpaperEntry) (n msg : String)
    (h : cat.find? (fun w => renderOption w == (splitPipe msg).headD "") = none) :
    ((handleSelectWallpaperP1 cat n msg).all (fun e => !(isLoadCall e))) = true ∧
    handleSelectWallpaperP1 cat n msg =
      [Effect.publish (stTopic n "select_wallpaper") msg true] := by
  have h2 : handleSelectWallpaperP1 cat n msg =
      [Effect.publish (stTopic n "select_wallpaper") msg true] := by
    simp only [handleSelectWallpaperP1, h]
    split <;> simp
  exact ⟨by rw [h2]; rfl, h2⟩

/-- Witness for C3 amended at a concrete unresolvable payload. -/
theorem c3_amended_witness :
    ([] : List WallpaperEntry).find?
      (fun w => renderOption w == (splitPipe "x|0").headD "") = none ∧
    ((handleSelectWallpaperP1 [] "n" "x|0").all (fun e => !(isLoadCall e))) = true ∧
    handleSelectWallpaperP1 [] "n" "x|0" =
      [Effect.publish (stTopic "n" "select_wallpaper") "x|0" true] :=
  ⟨rfl, (c3_amended [] "n" "x|0" rfl).1, (c3_amended [] "n" "x|0" rfl).2⟩

/-- Counterexample to C4: the main.ts (and part_000) select-profile case
only issues the load call; nothing at all is published. -/
theorem c4_counterexample :
    handleSelectProfileMain "Day" = [Effect.call (ApiCall.loadProfile "Day")] ∧
    ((handleSelectProfileMain "Day").all (fun e => !(isPublishE e))) = true :=
  ⟨rfl, rfl⟩

/-- Claim C4 as amended: every variant invokes the profile-load call with the
payload; only part_001 then publishes the payload verbatim, retained, on
the select_profile state topic (and only if the load call succeeded). -/
theorem c4_amended (o : ApiOracle) (n msg : String) :
    handleSelectProfileMain msg = [Effect.call (ApiCall.loadProfile msg)] ∧
    (o.loadProfileOk = true →
      handleSelectProfileP1 o n msg =
        [Effect.call (ApiCall.loadProfile msg),
         Effect.publish (stTopic n "select_profile") msg true]) ∧
    (o.loadProfileOk = false →
      handleSelectProfileP1 o n msg = [Effect.call (ApiCall.loadProfile msg)]) := by
  refine ⟨rfl, fun h => ?_, fun h => ?_⟩ <;> simp [handleSelectProfileP1, h]

/-- Witness for C4 amended with a succeeding load in part_001. -/
theorem c4_amended_witness :
    oAll.loadProfileOk = true ∧
    handleSelectProfileP1 oAll "n" "Day" =
      [Effect.call (ApiCall.loadProfile "Day"),
       Effect.publish (stTopic "n" "select_profile") "Day" true] :=
  ⟨rfl, (c4_amended oAll "n" "Day").2.1 rfl⟩

/-- Concrete JSON.parse oracle: parses exactly the payload of the C8
scenario. -/
def jp30 : String → Option Json := fun s =>
  if s == "\x7b\"fps\":30\x7d" then some (Json.obj [("fps", Json.num 30)])
  else none

/-- Oracle for the C8 counterexample scenario: apply succeeds, the
current wallpaper has no property mapping. -/
def o8 : ApiOracle := { currentWallpaper := some cwNoProps }

/-- Effect classifier: a publish to this node's last_set topic carrying
the given payload. -/
def isLastSetPublish (n payload : String) : Effect → Bool
  | .publish t p _ =>
    t == makeTopic ["we", n, "properties", "last_set"] && p == payload
  | _ => false

/-- Counterexample to C8: in part_000 the successfully parsed and
applied payload {"fps":30} leads to a last_set publish of the CURRENT
wallpaper's property mapping — here "\x7b\x7d" — and no publish of the
payload string itself ever occurs. -/
theorem c8_counterexample :
    ((handlePropertiesP000 jp30 o8 "n" "\x7b\"fps\":30\x7d").any
        (isLastSetPublish "n" "\x7b\x7d")) = true ∧
    ((handlePropertiesP000 jp30 o8 "n" "\x7b\"fps\":30\x7d").all
        (fun e => !(isLastSetPublish "n" "\x7b\"fps\":30\x7d" e))) = true :=
  ⟨rfl, rfl⟩

/-- Claim C8 as amended: in main.ts and part_001 the claim holds as stated — a
parse failure produces no call and no publish (this part also holds in
part_000), and a parsed payload is applied once and its re-stringified
text published retained to last_set exactly when the apply call
succeeds; the fps example stringifies to the claimed literal. -/
theorem c8_amended (jsonParse : String → Option Json) (o : ApiOracle)
    (n msg : String) (j : Json) :
    (jsonParse msg = none →
      handlePropertiesMain jsonParse o n msg = [] ∧
      handlePropertiesP000 jsonParse o n msg = []) ∧
    (jsonParse msg = some j → o.applyPropsOk = true →
      handlePropertiesMain jsonParse o n msg =
        [Effect.call (ApiCall.applyProperties j),
         Effect.publish (makeTopic ["we", n, "properties", "last_set"])
           (Json.stringify j) true]) ∧
    (jsonParse msg = some j → o.applyPropsOk = false →
      handlePropertiesMain jsonParse o n msg =
        [Effect.call (ApiCall.applyProperties j)]) ∧
    Json.stringify (Json.obj [("fps", Json.num 30)]) = "\x7b\"fps\":30\x7d" := by
  refine ⟨fun h => ⟨?_, ?_⟩, fun h ha => ?_, fun h ha => ?_, by decide⟩
  · simp [handlePropertiesMain, h]
  · simp [handlePropertiesP000, h]
  · simp [handlePropertiesMain, h, ha]
  · simp [handlePropertiesMain, h, ha]

/-- Witness for C8 amended: the unparsable and the fps payloads at the
concrete parse oracle. -/
theorem c8_amended_witness :
    jp30 "bad json" = none ∧
    jp30 "\x7b\"fps\":30\x7d" = some (Json.obj [("fps", Json.num 30)]) ∧
    oAll.applyPropsOk = true ∧
    handlePropertiesMain jp30 oAll "n" "bad json" = [] ∧
    handlePropertiesMain jp30 oAll "n" "\x7b\"fps\":30\x7d" =
      [Effect.call (ApiCall.applyProperties (Json.obj [("fps", Json.num 30)])),
       Effect.publish (makeTopic ["we", "n", "properties", "last_set"])
         "\x7b\"fps\":30\x7d" true] :=
  ⟨rfl, rfl, rfl,
   ((c8_amended jp30 oAll "n" "bad json" Json.null).1 rfl).1,
   (c8_amended jp30 oAll "n" "\x7b\"fps\":30\x7d"
     (Json.obj [("fps", Json.num 30)])).2.1 rfl rfl⟩


/-- Every publish effect in a trace is retained. -/
def AllRetained (es : List Effect) : Prop :=
  ∀ t p r, Effect.publish t p r ∈ es → r = true

/-- Helper: every publish of the show_icons handler is retained. -/
theorem allRetained_showIcons (o : ApiOracle) (st : ShadowState) (n msg : String) :
    AllRetained (handleShowIcons o st n msg).2 := by
  intro t p r hm
  by_cases ht : parseToggle msg <;> by_cases h1 : o.showIconsOk <;>
    by_cases h2 : o.hideIconsOk <;>
    simp [handleShowIcons, ht, h1, h2] at hm <;> tauto

/-- Helper: every publish of the muted handler is retained. -/
theorem allRetained_muted (o : ApiOracle) (st : ShadowState) (n msg : String) :
    AllRetained (handleMuted o st n msg).2 := by
  intro t p r hm
  by_cases ht : parseToggle msg <;> by_cases h1 : o.muteOk <;>
    by_cases h2 : o.unmuteOk <;>
    simp [handleMuted, ht, h1, h2] at hm <;> tauto

/-- Helper: every publish of the paused handler is retained. -/
theorem allRetained_paused (o : ApiOracle) (st : ShadowState) (n msg : String) :
    AllRetained (handlePausedToggle o st n msg).2 := by
  intro t p r hm
  by_cases h1 : o.pauseOk <;> simp [handlePausedToggle, h1] at hm <;> tauto

/-- Helper: every publish of the main select-wallpaper handler is
retained. -/
theorem allRetained_selWpMain (o : ApiOracle) (n msg : String) :
    AllRetained (handleSelectWallpaperMain o n msg) := by
  intro t p r hm
  by_cases h1 : o.loadWallpaperOk <;>
    simp [handleSelectWallpaperMain, h1] at hm <;> tauto

/-- Helper: the main select-profile handler publishes nothing. -/
theorem allRetained_selProfMain (msg : String) :
    AllRetained (handleSelectProfileMain msg) := by
  intro t p r hm
  simp [handleSelectProfileMain] at hm

/-- Helper: every publish of the main properties handler is retained. -/
theorem allRetained_propsMain (jp : String → Option Json) (o : ApiOracle)
    (n msg : String) : AllRetained (handlePropertiesMain jp o n msg) := by
  intro t p r hm
  rcases hj : jp msg with _ | j <;> by_cases ha : o.applyPropsOk <;>
    simp [handlePropertiesMain, hj, ha] at hm <;> tauto

/-- Helper: every publish of the main refresh pass is retained. -/
theorem allRetained_refreshMain (o : ApiOracle)
    (ifaces : List (String × List IfAddr)) (n : String) (cat : Catalogs) :
    AllRetained (refreshMain o ifaces n cat).2 := by
  intro t p r hm
  rcases hw : o.listWallpapers with _ | wp <;>
    rcases hp : o.listProfiles with _ | profs <;>
    simp [refreshMain, hw, hp] at hm <;> tauto

/-- Helper: every publish of the part_000 current-wallpaper republish is
retained. -/
theorem allRetained_pubCurrent (o : ApiOracle) (n : String) :
    AllRetained (publishCurrentWallpaperP000 o n) := by
  intro t p r hm
  rcases hc : o.currentWallpaper with _ | cw <;>
    simp [publishCurrentWallpaperP000, hc] at hm <;> tauto

/-- Helper: every publish of the part_000 refresh pass is retained. -/
theorem allRetained_refreshP000 (o : ApiOracle) (n ip : String) (cat : Catalogs) :
    AllRetained (refreshP000 o n ip cat).2 := by
  intro t p r hm
  rcases hw : o.listWallpapers with _ | wp
  · simp [refreshP000, hw] at hm
  · rcases hp : o.listProfiles with _ | profs
    · simp [refreshP000, hw, hp] at hm
    · simp only [refreshP000, hw, hp] at hm
      rcases List.mem_append.mp hm with hm1 | hm2
      · rcases List.mem_append.mp hm1 with hm3 | hm4
        · simp at hm3; tauto
        · exact allRetained_pubCurrent o n t p r hm4
      · simp at hm2; tauto

/-- Helper: a publish of the button_play handler goes to the play ack
topic, non-retained. -/
theorem buttonPlay_pub (o : ApiOracle) (n : String) :
    ∀ t p r, Effect.publish t p r ∈ handleButtonPlay o n →
      t = stTopic n "button_play" ∧ r = false := by
  intro t p r hm
  by_cases h1 : o.playOk <;> simp [handleButtonPlay, h1] at hm <;> tauto

/-- Helper: a publish of the button_stop handler goes to the stop ack
topic, non-retained. -/
theorem buttonStop_pub (o : ApiOracle) (n : String) :
    ∀ t p r, Effect.publish t p r ∈ handleButtonStop o n →
      t = stTopic n "button_stop" ∧ r = false := by
  intro t p r hm
  by_cases h1 : o.stopOk <;> simp [handleButtonStop, h1] at hm <;> tauto

/-- Whole starting state for concrete scenarios. -/
def mst0 : MainState := { shadow := st0, cat := cat0 }

/-- Counterexample to C5: the button_play handler publishes "pressed" to
the button_play state topic with the retained flag false. -/
theorem c5_counterexample :
    Effect.publish (stTopic "n" "button_play") "pressed" false
        ∈ (handleMessageMain jp30 oAll [] "n" mst0 (cmdTopic "n" "button_play") "x").2 ∧
    stTopic "n" "button_play" ∈ stateAttrTopics "n" := by
  have h : (handleMessageMain jp30 oAll [] "n" mst0 (cmdTopic "n" "button_play") "x").2 =
      [Effect.call ApiCall.play,
       Effect.publish (stTopic "n" "button_play") "pressed" false] := rfl
  rw [h]
  constructor
  · simp
  · simp [stateAttrTopics]

/-- Helper: every publish of the part_001 paused handler is retained. -/
theorem allRetained_pausedP1 (o : ApiOracle) (st : ShadowState) (n msg : String) :
    AllRetained (handlePausedP1 o st n msg).2 := by
  intro t p r hm
  by_cases ht : parseToggle msg <;> by_cases h1 : o.pauseOk <;>
    by_cases h2 : o.playOk <;>
    simp [handlePausedP1, ht, h1, h2] at hm <;> tauto

/-- Helper: every publish of the part_001 select-wallpaper handler is
retained (the load block yields only call effects; the trailing payload
echo is retained). -/
theorem allRetained_selWpP1 (ws : List WallpaperEntry) (n msg : String) :
    AllRetained (handleSelectWallpaperP1 ws n msg) := by
  intro t p r hm
  simp only [handleSelectWallpaperP1] at hm
  rcases List.mem_append.mp hm with hm1 | hm2
  · split at hm1 <;> split at hm1 <;> simp at hm1
  · simp at hm2
    tauto

/-- Helper: every publish of the part_001 select-profile handler is
retained. -/
theorem allRetained_selProfP1 (o : ApiOracle) (n msg : String) :
    AllRetained (handleSelectProfileP1 o n msg) := by
  intro t p r hm
  by_cases h1 : o.loadProfileOk <;>
    simp [handleSelectProfileP1, h1] at hm <;> tauto

/-- Helper: every publish of the part_000 properties handler is retained
(its publishes all come from the current-wallpaper republish). -/
theorem allRetained_propsP000 (jp : String → Option Json) (o : ApiOracle)
    (n msg : String) : AllRetained (handlePropertiesP000 jp o n msg) := by
  intro t p r hm
  rcases hj : jp msg with _ | j
  · simp [handlePropertiesP000, hj] at hm
  · by_cases ha : o.applyPropsOk
    · simp [handlePropertiesP000, hj, ha] at hm
      exact allRetained_pubCurrent o n t p r hm
    · simp [handlePropertiesP000, hj, ha] at hm

/-- Claim C5 as amended: every publish that the modelled program paths
perform to an entity state or attributes topic is retained, EXCEPT the
two momentary-button acknowledgments, which the source publishes with
retain false.  The conjuncts cover the full main.ts message handler
(whose toggle, button, select-wallpaper, properties and refresh cases
also embed the identical part_000/part_001 code), the part_000 refresh
pass with its current-wallpaper republish, the part_001 paused,
select-wallpaper and select-profile handlers, and the part_000
properties handler — every publishing path modelled in this file. -/
theorem c5_amended (jp : String → Option Json) (o : ApiOracle)
    (ifaces : List (String × List IfAddr)) (n ip topic msg : String)
    (st : MainState) (cat : Catalogs) (ws : List WallpaperEntry) :
    (∀ t p r, Effect.publish t p r ∈ (handleMessageMain jp o ifaces n st topic msg).2 →
      t ∈ stateAttrTopics n → t ∉ buttonAckTopics n → r = true) ∧
    (∀ t p r, Effect.publish t p r ∈ (refreshP000 o n ip cat).2 →
      t ∈ stateAttrTopics n → t ∉ buttonAckTopics n → r = true) ∧
    (∀ t p r, Effect.publish t p r ∈ (handlePausedP1 o st.shadow n msg).2 →
      t ∈ stateAttrTopics n → t ∉ buttonAckTopics n → r = true) ∧
    (∀ t p r, Effect.publish t p r ∈ handleSelectWallpaperP1 ws n msg →
      t ∈ stateAttrTopics n → t ∉ buttonAckTopics n → r = true) ∧
    (∀ t p r, Effect.publish t p r ∈ handleSelectProfileP1 o n msg →
      t ∈ stateAttrTopics n → t ∉ buttonAckTopics n → r = true) ∧
    (∀ t p r, Effect.publish t p r ∈ handlePropertiesP000 jp o n msg →
      t ∈ stateAttrTopics n → t ∉ buttonAckTopics n → r = true) := by
  refine ⟨?_, ?_, ?_, ?_, ?_, ?_⟩
  case refine_2 =>
    intro t p r hm hst hnb
    exact allRetained_refreshP000 o n ip cat t p r hm
  case refine_3 =>
    intro t p r hm hst hnb
    exact allRetained_pausedP1 o st.shadow n msg t p r hm
  case refine_4 =>
    intro t p r hm hst hnb
    exact allRetained_selWpP1 ws n msg t p r hm
  case refine_5 =>
    intro t p r hm hst hnb
    exact allRetained_selProfP1 o n msg t p r hm
  case refine_6 =>
    intro t p r hm hst hnb
    exact allRetained_propsP000 jp o n msg t p r hm
  case refine_1 =>
    intro t p r hm hst hnb
    unfold handleMessageMain at hm
    rcases hc : commandOfTopic n topic with _ | c <;> rw [hc] at hm
    · simp at hm
    · cases c <;> simp only [handleCommandMain] at hm
      case showIcons => exact allRetained_showIcons o st.shadow n msg t p r hm
      case muted => exact allRetained_muted o st.shadow n msg t p r hm
      case paused => exact allRetained_paused o st.shadow n msg t p r hm
      case buttonPlay =>
        rcases buttonPlay_pub o n t p r hm with ⟨ht, -⟩
        exact absurd (by simp [buttonAckTopics, ht]) hnb
      case buttonStop =>
        rcases buttonStop_pub o n t p r hm with ⟨ht, -⟩
        exact absurd (by simp [buttonAckTopics, ht]) hnb
      case selectWallpaper => exact allRetained_selWpMain o n msg t p r hm
      case selectProfile => exact allRetained_selProfMain msg t p r hm
      case properties => exact allRetained_propsMain jp o n msg t p r hm
      case refresh => exact allRetained_refreshMain o ifaces n st.cat t p r hm

/-- Witness for C5 amended: the accepted icons command publishes its
state retained. -/
theorem c5_amended_witness :
    Effect.publish (stTopic "n" "show_icons") "ON" true
        ∈ (handleMessageMain jp30 oAll [] "n" mst0 (cmdTopic "n" "show_icons") "ON").2 ∧
    stTopic "n" "show_icons" ∈ stateAttrTopics "n" ∧
    stTopic "n" "show_icons" ∉ buttonAckTopics "n" ∧
    true = true := by
  have hmem : Effect.publish (stTopic "n" "show_icons") "ON" true
      ∈ (handleMessageMain jp30 oAll [] "n" mst0 (cmdTopic "n" "show_icons") "ON").2 := by
    have h : (handleMessageMain jp30 oAll [] "n" mst0 (cmdTopic "n" "show_icons") "ON").2 =
        [Effect.call ApiCall.showIcons,
         Effect.publish (stTopic "n" "show_icons") "ON" true] := rfl
    rw [h]; simp
  have hst : stTopic "n" "show_icons" ∈ stateAttrTopics "n" := by
    simp [stateAttrTopics]
  have hnb : stTopic "n" "show_icons" ∉ buttonAckTopics "n" := by
    simp [buttonAckTopics, stTopic, makeTopic]
  exact ⟨hmem, hst, hnb,
    (c5_amended jp30 oAll [] "n" "ip" (cmdTopic "n" "show_icons") "ON" mst0 cat0 []).1
      (stTopic "n" "show_icons") "ON" true hmem hst hnb⟩

end WeHa

